import Mathlib

/-!
# LQUIC core, shallowly embedded

A shallow embedding of the LQUIC repository's core Go packages
(`internal/protocol`, `internal/packet`, `internal/crypto`,
`internal/flowcontrol`, `internal/connection`) together with proofs about
the packet codec, the connection state machine, the crypto state
progression and flow control.

Modelling conventions:
* Go byte slices are `List Nat` (each element a byte value `< 256`); where
  the nil-ness of a slice is observable (`== nil` tests, `append` on nil),
  the slice is `Option (List Nat)` with `none` for the nil slice.
* Machine integers (`uint8`/`uint32`/`uint64`/`int`) are `Nat` (or `Int`
  for Go's signed `int`), with explicit `% 2 ^ w` wherever Go overflow or
  conversion truncates.
* Methods that mutate a receiver become state-passing functions; a method
  that can both mutate and return an error returns the updated state
  together with an optional error, mirroring Go's in-place mutation (a
  partial mutation before an error return is therefore observable).
* A Go runtime panic (index or slice bounds violation) is an explicit
  `panicked` outcome of the embedded function.
-/

namespace LQUIC

/-- `2 ^ 64`, the modulus of Go's `uint64` arithmetic. -/
def U64 : Nat := 2 ^ 64

/-- `2 ^ 63`, the magnitude bound of Go's 64-bit signed `int`. -/
def I63 : Nat := 2 ^ 63

/-- Wrap an integer into Go's signed 64-bit `int` range `[-2^63, 2^63)`. -/
def intWrap (x : Int) : Int := (x + (I63 : Int)) % (U64 : Int) - (I63 : Int)

/-- Big-endian byte encoding, `w` bytes wide (`binary.BigEndian.PutUint32/64`
writes `beBytes 4` resp. `beBytes 8` of the value). -/
def beBytes : Nat → Nat → List Nat
  | 0, _ => []
  | w + 1, v => beBytes w (v / 256) ++ [v % 256]

/-- Big-endian value of a byte list (`binary.BigEndian.Uint32/64` applied to
the corresponding 4- or 8-byte window). -/
def beVal (l : List Nat) : Nat := l.foldl (fun a b => a * 256 + b) 0

/-! ## `internal/protocol` -/

/-- `protocol.Version`. -/
def Version : Nat := 1

/-- `protocol.PacketTypeInitial`. -/
def PacketTypeInitial : Nat := 1

/-- `protocol.PacketTypeHandshake`. -/
def PacketTypeHandshake : Nat := 2

/-- `protocol.PacketTypeOneRTT`. -/
def PacketTypeOneRTT : Nat := 3

/-- `protocol.PacketTypeRetry`. -/
def PacketTypeRetry : Nat := 4

/-! ## `internal/packet` -/

/-- `packet.Header`. `payloadLen` exists in the Go struct but is never
written by `Packet.Pack` nor set by `packet.Unpack`. -/
structure Header where
  type : Nat
  version : Nat
  destConnID : List Nat
  srcConnID : List Nat
  packetNumber : Nat
  payloadLen : Nat
deriving DecidableEq, Repr

/-- `packet.Packet`. -/
structure Packet where
  header : Header
  payload : List Nat
deriving DecidableEq, Repr

/-- The packet-type switch shared by `Header.Pack` and `Packet.Pack`. -/
def validPacketType (t : Nat) : Bool :=
  t = PacketTypeInitial ∨ t = PacketTypeHandshake ∨ t = PacketTypeOneRTT ∨ t = PacketTypeRetry

/-- `Packet.Pack`: type byte, 4-byte version, length-prefixed destination and
source connection IDs, 8-byte packet number, 8-byte payload length, payload.
`byte(len(...))` truncates a connection-ID length to one byte. -/
def Packet.Pack (p : Packet) : Option (List Nat) :=
  if validPacketType p.header.type then
    some ([p.header.type] ++ beBytes 4 p.header.version
      ++ [p.header.destConnID.length % 256] ++ p.header.destConnID
      ++ [p.header.srcConnID.length % 256] ++ p.header.srcConnID
      ++ beBytes 8 p.header.packetNumber
      ++ beBytes 8 p.payload.length
      ++ p.payload)
  else none

/-- The truncation errors of `packet.Unpack`, one per distinct
`fmt.Errorf` message. -/
inductive UnpackError
  | tooShort
  | truncDestID
  | truncSrcID
  | truncPacketNumber
  | truncPayloadLen
  | truncPayload
deriving DecidableEq, Repr

/-- Outcome of `packet.Unpack`: a packet, a typed error, or a Go runtime
panic (index/slice bounds violation). -/
inductive UnpackResult
  | ok (p : Packet)
  | err (e : UnpackError)
  | panicked
deriving DecidableEq, Repr

/-- `packet.Unpack`, mirroring the Go offset arithmetic step by step.
Reads of `data[offset]` without a preceding bounds check are guarded by an
explicit `panicked` outcome, as is the final payload slice whose upper
bound `offset + int(payloadLen)` is computed in Go's wrapping signed `int`
arithmetic. -/
def Unpack (data : List Nat) : UnpackResult :=
  if data.length < 22 then .err .tooShort else
  let type := (data.drop 0).headD 0
  let version := beVal ((data.drop 1).take 4)
  let destConnIDLen := (data.drop 5).headD 0
  if 6 + destConnIDLen > data.length then .err .truncDestID else
  let destConnID := (data.drop 6).take destConnIDLen
  if 6 + destConnIDLen ≥ data.length then .panicked else
  let srcConnIDLen := (data.drop (6 + destConnIDLen)).headD 0
  if 7 + destConnIDLen + srcConnIDLen > data.length then .err .truncSrcID else
  let srcConnID := (data.drop (7 + destConnIDLen)).take srcConnIDLen
  let pnOff := 7 + destConnIDLen + srcConnIDLen
  if pnOff + 8 > data.length then .err .truncPacketNumber else
  let packetNumber := beVal ((data.drop pnOff).take 8)
  if pnOff + 16 > data.length then .err .truncPayloadLen else
  let payloadLen := beVal ((data.drop (pnOff + 8)).take 8)
  let plOff := pnOff + 16
  let plEnd : Int := intWrap ((plOff : Int) + intWrap (payloadLen : Int))
  if plEnd > (data.length : Int) then .err .truncPayload else
  if plEnd < (plOff : Int) then .panicked else
  .ok { header := { type := type, version := version, destConnID := destConnID,
                    srcConnID := srcConnID, packetNumber := packetNumber, payloadLen := 0 },
        payload := (data.drop plOff).take (plEnd - (plOff : Int)).toNat }

/-! ## SHA-256 and HMAC

Executable models of Go's `crypto/sha256` and `crypto/hmac` (FIPS 180-4 /
RFC 2104), which `crypto.hkdfExtract` is built from. -/

/-- `2 ^ 32`, the modulus of 32-bit word arithmetic. -/
def U32 : Nat := 2 ^ 32

/-- All-ones 32-bit mask. -/
def mask32 : Nat := 2 ^ 32 - 1

/-- Right rotation of a 32-bit word. -/
def rotr (n x : Nat) : Nat := ((x >>> n) ||| (x <<< (32 - n))) &&& mask32

/-- SHA-256 `Ch`; 32-bit complement is xor with `mask32`. -/
def shaCh (x y z : Nat) : Nat := (x &&& y) ^^^ ((x ^^^ mask32) &&& z)

/-- SHA-256 `Maj`. -/
def shaMaj (x y z : Nat) : Nat := (x &&& y) ^^^ (x &&& z) ^^^ (y &&& z)

/-- SHA-256 `Σ₀`. -/
def shaS0 (x : Nat) : Nat := rotr 2 x ^^^ rotr 13 x ^^^ rotr 22 x

/-- SHA-256 `Σ₁`. -/
def shaS1 (x : Nat) : Nat := rotr 6 x ^^^ rotr 11 x ^^^ rotr 25 x

/-- SHA-256 `σ₀`. -/
def shaG0 (x : Nat) : Nat := rotr 7 x ^^^ rotr 18 x ^^^ (x >>> 3)

/-- SHA-256 `σ₁`. -/
def shaG1 (x : Nat) : Nat := rotr 17 x ^^^ rotr 19 x ^^^ (x >>> 10)

/-- The eight 32-bit working variables of the SHA-256 compression. -/
structure ShaState where
  a : Nat
  b : Nat
  c : Nat
  d : Nat
  e : Nat
  f : Nat
  g : Nat
  h : Nat
deriving DecidableEq, Repr

/-- SHA-256 round constants, in rounds 0–7, 8–15, …, 56–63. -/
def sha256K : List Nat :=
  [0x428a2f98, 0x71374491, 0xb5c0fbcf, 0xe9b5dba5, 0x3956c25b, 0x59f111f1, 0x923f82a4, 0xab1c5ed5]
  ++ [0xd807aa98, 0x12835b01, 0x243185be, 0x550c7dc3, 0x72be5d74, 0x80deb1fe, 0x9bdc06a7, 0xc19bf174]
  ++ [0xe49b69c1, 0xefbe4786, 0x0fc19dc6, 0x240ca1cc, 0x2de92c6f, 0x4a7484aa, 0x5cb0a9dc, 0x76f988da]
  ++ [0x983e5152, 0xa831c66d, 0xb00327c8, 0xbf597fc7, 0xc6e00bf3, 0xd5a79147, 0x06ca6351, 0x14292967]
  ++ [0x27b70a85, 0x2e1b2138, 0x4d2c6dfc, 0x53380d13, 0x650a7354, 0x766a0abb, 0x81c2c92e, 0x92722c85]
  ++ [0xa2bfe8a1, 0xa81a664b, 0xc24b8b70, 0xc76c51a3, 0xd192e819, 0xd6990624, 0xf40e3585, 0x106aa070]
  ++ [0x19a4c116, 0x1e376c08, 0x2748774c, 0x34b0bcb5, 0x391c0cb3, 0x4ed8aa4a, 0x5b9cca4f, 0x682e6ff3]
  ++ [0x748f82ee, 0x78a5636f, 0x84c87814, 0x8cc70208, 0x90befffa, 0xa4506ceb, 0xbef9a3f7, 0xc67178f2]

/-- SHA-256 initial hash value. -/
def sha256Init : ShaState :=
  ⟨0x6a09e667, 0xbb67ae85, 0x3c6ef372, 0xa54ff53a, 0x510e527f, 0x9b05688c, 0x1f83d9ab, 0x5be0cd19⟩

/-- One SHA-256 compression round. -/
def shaRound (s : ShaState) (k w : Nat) : ShaState :=
  let t1 := (s.h + shaS1 s.e + shaCh s.e s.f s.g + k + w) &&& mask32
  let t2 := (shaS0 s.a + shaMaj s.a s.b s.c) &&& mask32
  ⟨(t1 + t2) &&& mask32, s.a, s.b, s.c, (s.d + t1) &&& mask32, s.e, s.f, s.g⟩

/-- Append one word of the SHA-256 message schedule. -/
def shaExtendStep (ws : List Nat) : List Nat :=
  let n := ws.length
  ws ++ [(shaG1 (ws.getD (n - 2) 0) + ws.getD (n - 7) 0
          + shaG0 (ws.getD (n - 15) 0) + ws.getD (n - 16) 0) &&& mask32]

/-- Extend the message schedule by `k` words. -/
def shaExtend : Nat → List Nat → List Nat
  | 0, ws => ws
  | k + 1, ws => shaExtend k (shaExtendStep ws)

/-- SHA-256 compression of one 16-word block into the chaining state. -/
def shaCompress (s : ShaState) (block : List Nat) : ShaState :=
  let ws := shaExtend 48 block
  let t := (sha256K.zip ws).foldl (fun s kw => shaRound s kw.1 kw.2) s
  ⟨(s.a + t.a) &&& mask32, (s.b + t.b) &&& mask32, (s.c + t.c) &&& mask32,
   (s.d + t.d) &&& mask32, (s.e + t.e) &&& mask32, (s.f + t.f) &&& mask32,
   (s.g + t.g) &&& mask32, (s.h + t.h) &&& mask32⟩

/-- Group bytes into big-endian 32-bit words. -/
def toWords : List Nat → List Nat
  | b0 :: b1 :: b2 :: b3 :: rest => (((b0 * 256 + b1) * 256 + b2) * 256 + b3) :: toWords rest
  | _ => []

/-- Group words into 16-word blocks. -/
def toBlocks : List Nat → List (List Nat)
  | w0 :: w1 :: w2 :: w3 :: w4 :: w5 :: w6 :: w7 ::
    w8 :: w9 :: w10 :: w11 :: w12 :: w13 :: w14 :: w15 :: rest =>
      [w0, w1, w2, w3, w4, w5, w6, w7, w8, w9, w10, w11, w12, w13, w14, w15] :: toBlocks rest
  | _ => []

/-- Zero bytes inserted by SHA-256 padding after the `0x80` byte. -/
def shaPadZeros (len : Nat) : Nat := (119 - len % 64) % 64

/-- SHA-256 of a byte string, as a 32-byte string. -/
def sha256 (msg : List Nat) : List Nat :=
  let padded := msg ++ [0x80] ++ List.replicate (shaPadZeros msg.length) 0
                ++ beBytes 8 (8 * msg.length)
  let t := (toBlocks (toWords padded)).foldl shaCompress sha256Init
  beBytes 4 t.a ++ beBytes 4 t.b ++ beBytes 4 t.c ++ beBytes 4 t.d ++
  beBytes 4 t.e ++ beBytes 4 t.f ++ beBytes 4 t.g ++ beBytes 4 t.h

/-- HMAC-SHA-256 (`crypto/hmac` over `crypto/sha256`). -/
def hmacSha256 (key msg : List Nat) : List Nat :=
  let k0 := if 64 < key.length then sha256 key else key
  let kPad := k0 ++ List.replicate (64 - k0.length) 0
  sha256 ((kPad.map (fun b => b ^^^ 0x5c)) ++ sha256 ((kPad.map (fun b => b ^^^ 0x36)) ++ msg))

/-! ## `internal/crypto` -/

/-- ASCII bytes of a string literal (the HKDF label constants). -/
def strBytes (s : String) : List Nat := s.data.map Char.toNat

/-- `crypto.hkdfExtract`: HMAC-SHA-256 keyed with the salt. -/
def hkdfExtract (salt ikm : List Nat) : List Nat := hmacSha256 salt ikm

/-- `crypto.LevelInitial`. -/
def LevelInitial : Nat := 0

/-- `crypto.LevelHandshake`. -/
def LevelHandshake : Nat := 1

/-- `crypto.LevelOneRTT`. -/
def LevelOneRTT : Nat := 2

/-- The `tls.Config` collaborator, reduced to what the core reads from it:
whether a `ClientSessionCache` is set, and the randomness source (`none`
models a nil or failing `Rand`; `some bs` models a reader that would yield
the bytes `bs` next). -/
structure TLSConfig where
  hasClientSessionCache : Bool
  randBytes : Option (List Nat)
deriving DecidableEq, Repr

/-- `crypto.CryptoSetup`. `handshakeData`, `sessionTicket` and `zeroRTTKey`
are `Option` because Go distinguishes the nil slice. -/
structure CryptoSetup where
  tlsConfig : Option TLSConfig
  level : Nat
  handshakeComplete : Bool
  handshakeData : Option (List Nat)
  sessionTicket : Option (List Nat)
  zeroRTTKey : Option (List Nat)
deriving DecidableEq, Repr

/-- `crypto.NewCryptoSetup`. -/
def NewCryptoSetup (tlsConfig : Option TLSConfig) : CryptoSetup :=
  { tlsConfig := tlsConfig, level := LevelInitial, handshakeComplete := false,
    handshakeData := none, sessionTicket := none, zeroRTTKey := none }

/-- The distinct `fmt.Errorf` values of the crypto package. -/
inductive CryptoError
  | staleCryptoLevel
  | handshakeNotComplete
  | invalidTLSConfig
  | invalidZeroRTTKey
deriving DecidableEq, Repr

/-- Go `append` on a possibly-nil slice: appending nothing to nil stays nil. -/
def goAppend (buf : Option (List Nat)) (d : List Nat) : Option (List Nat) :=
  match buf with
  | none => if d.isEmpty then none else some d
  | some b => some (b ++ d)

/-- `CryptoSetup.HandleCryptoFrame`. -/
def CryptoSetup.HandleCryptoFrame (c : CryptoSetup) (data : List Nat) (level : Nat) :
    Except CryptoError CryptoSetup :=
  if level < c.level then .error .staleCryptoLevel
  else .ok { c with handshakeData := goAppend c.handshakeData data }

/-- `CryptoSetup.SetHandshakeComplete`. -/
def CryptoSetup.SetHandshakeComplete (c : CryptoSetup) : CryptoSetup :=
  { c with handshakeComplete := true, level := LevelOneRTT }

/-- `CryptoSetup.HandshakeComplete`. -/
def CryptoSetup.HandshakeComplete (c : CryptoSetup) : Bool := c.handshakeComplete

/-- `CryptoSetup.GetCurrentLevel`. -/
def CryptoSetup.GetCurrentLevel (c : CryptoSetup) : Nat := c.level

/-- The fixed QUIC-v1 initial salt in `generateInitialSecrets`. -/
def quicInitialSalt : List Nat :=
  [0x38, 0x76, 0x2C, 0xF7, 0xF5, 0x59, 0x34, 0xB3, 0x4D, 0x17, 0x2A, 0x14, 0x48, 0x9B, 0x7C,
   0xD1, 0xF4, 0x3E, 0x5A, 0x8B]

/-- `CryptoSetup.generateInitialSecrets`. A nil or failing `Rand` yields no
secret (the nil-`Rand` dereference cannot occur when the embedding is used
with a well-formed config; it is modelled as absence of a value). -/
def CryptoSetup.generateInitialSecrets (c : CryptoSetup) : Option (List Nat) :=
  match c.tlsConfig with
  | none => none
  | some cfg =>
    if !cfg.hasClientSessionCache then none
    else
      match cfg.randBytes with
      | none => none
      | some rb => some (hkdfExtract quicInitialSalt (rb.take 20))

/-- `CryptoSetup.generateHandshakeSecrets`. -/
def CryptoSetup.generateHandshakeSecrets (c : CryptoSetup) : Option (List Nat) :=
  if c.tlsConfig = none ∨ c.handshakeData = none then none
  else
    let hd := c.handshakeData.getD []
    if hd.length < 64 then none
    else
      let clientRandom := hd.take 32
      let serverRandom := (hd.drop 32).take 32
      let handshakeContext := sha256 (clientRandom ++ serverRandom)
      let handshakeSecret := hkdfExtract handshakeContext (strBytes "tls13 hs")
      some (hkdfExtract handshakeSecret (strBytes "traffic"))

/-- `CryptoSetup.generateApplicationSecrets`: the master secret is the
**last** 32 bytes of the handshake buffer. -/
def CryptoSetup.generateApplicationSecrets (c : CryptoSetup) : Option (List Nat) :=
  if !c.handshakeComplete ∨ c.handshakeData = none then none
  else
    let hd := c.handshakeData.getD []
    if hd.length < 96 then none
    else
      let masterSecret := hd.drop (hd.length - 32)
      let appSecret := hkdfExtract masterSecret (strBytes "tls13 ap traffic")
      some (hkdfExtract appSecret (strBytes "quic key"))

/-- `CryptoSetup.GetCryptoData`. -/
def CryptoSetup.GetCryptoData (c : CryptoSetup) (level : Nat) : Option (List Nat) :=
  if c.tlsConfig = none then none
  else if level = LevelInitial then c.generateInitialSecrets
  else if level = LevelHandshake then c.generateHandshakeSecrets
  else if level = LevelOneRTT then c.generateApplicationSecrets
  else none

/-- `CryptoSetup.UpdateSessionTicket`. -/
def CryptoSetup.UpdateSessionTicket (c : CryptoSetup) (ticket : List Nat) :
    Except CryptoError CryptoSetup :=
  if !c.handshakeComplete then .error .handshakeNotComplete
  else .ok { c with sessionTicket := some ticket }

/-- `CryptoSetup.CompleteOneRTT`: returns the ticket key and the updated
state. -/
def CryptoSetup.CompleteOneRTT (c : CryptoSetup) :
    Except CryptoError (List Nat × CryptoSetup) :=
  match c.tlsConfig with
  | none => .error .invalidTLSConfig
  | some cfg =>
    match cfg.randBytes with
    | none => .error .invalidTLSConfig
    | some rb =>
      if !c.handshakeComplete then .error .invalidTLSConfig
      else
        let ticket := rb.take 32
        let ticketKey := hkdfExtract (strBytes "tls13 resumption " ++ c.handshakeData.getD []) ticket
        .ok (ticketKey, { c with sessionTicket := some ticket })

/-- `CryptoSetup.TryZeroRTT`: returns `(ok, key)` and the updated state. -/
def CryptoSetup.TryZeroRTT (c : CryptoSetup) (ticketID : List Nat) :
    (Bool × Option (List Nat)) × CryptoSetup :=
  if ticketID.length = 0 ∨ c.handshakeData = none then ((false, none), c)
  else
    let zeroRTTKey := hkdfExtract (strBytes "tls13 0-rtt " ++ c.handshakeData.getD []) ticketID
    if zeroRTTKey.length = 0 then ((false, none), c)
    else ((true, some zeroRTTKey), { c with zeroRTTKey := some zeroRTTKey })

/-- `CryptoSetup.SetZeroRTTKey`. The Go guard is `key == nil`, so the
argument is an `Option`: `none` is the nil slice, `some []` the empty
non-nil slice. -/
def CryptoSetup.SetZeroRTTKey (c : CryptoSetup) (key : Option (List Nat)) :
    Except CryptoError CryptoSetup :=
  match key with
  | none => .error .invalidZeroRTTKey
  | some k => .ok { c with zeroRTTKey := some k }

/-! ## `internal/flowcontrol`

All counters are Go `uint64`; arithmetic wraps modulo `2 ^ 64`. The
`lastWindowUpdate` timestamp is write-only in the source and is omitted. -/

/-- `flowcontrol.FlowController`. -/
structure FlowController where
  windowSize : Nat
  bytesInFlight : Nat
  maxWindowSize : Nat
  recvWindowSize : Nat
deriving DecidableEq, Repr

/-- `flowcontrol.NewFlowController`. -/
def NewFlowController (initialWindowSize maxWindowSize : Nat) : FlowController :=
  { windowSize := initialWindowSize, bytesInFlight := 0,
    maxWindowSize := maxWindowSize, recvWindowSize := initialWindowSize }

/-- `FlowController.UpdateWindow`: `bytesInFlight -= bytes` in `uint64`
arithmetic (wraps below zero). -/
def FlowController.UpdateWindow (f : FlowController) (bytes : Nat) : FlowController :=
  { f with bytesInFlight := (f.bytesInFlight + (U64 - bytes % U64)) % U64 }

/-- `FlowController.UpdateRecvWindow`: add, then clamp to `maxWindowSize`. -/
def FlowController.UpdateRecvWindow (f : FlowController) (bytes : Nat) : FlowController :=
  let r := (f.recvWindowSize + bytes) % U64
  { f with recvWindowSize := if f.maxWindowSize < r then f.maxWindowSize else r }

/-- `FlowController.CanSend`: `bytesInFlight + bytes <= windowSize` in
`uint64` arithmetic. -/
def FlowController.CanSend (f : FlowController) (bytes : Nat) : Bool :=
  decide ((f.bytesInFlight + bytes) % U64 ≤ f.windowSize)

/-- `FlowController.OnDataSent`: `bytesInFlight += bytes`. -/
def FlowController.OnDataSent (f : FlowController) (bytes : Nat) : FlowController :=
  { f with bytesInFlight := (f.bytesInFlight + bytes) % U64 }

/-- `FlowController.GetWindowSize`. -/
def FlowController.GetWindowSize (f : FlowController) : Nat := f.windowSize

/-- `FlowController.GetBytesInFlight`. -/
def FlowController.GetBytesInFlight (f : FlowController) : Nat := f.bytesInFlight

/-! ## `internal/connection` -/

/-- `connection.ConnectionState` (`StateInitial` … `StateClosed`). -/
inductive ConnectionState
  | stateInitial
  | stateHandshaking
  | stateEstablished
  | stateClosed
deriving DecidableEq, Repr

/-- The distinct `fmt.Errorf` values `Connection.HandlePacket` can return;
the two crypto-frame failures wrap the inner crypto error. -/
inductive ConnError
  | invalidPacketNumber (pn : Nat)
  | unsupportedVersion (v : Nat)
  | initialCryptoFailed (e : CryptoError)
  | handshakeCryptoFailed (e : CryptoError)
  | notEstablished
  | flowControlExceeded
  | handshakeIncomplete
deriving DecidableEq, Repr

/-- `connection.Connection` (network handles and channels omitted;
`closeOnceDone` models the consumed state of `closeOnce`). -/
structure Connection where
  state : ConnectionState
  destConnID : List Nat
  srcConnID : List Nat
  cryptoSetup : CryptoSetup
  flowController : FlowController
  packetNumberGenerator : Nat
  closeOnceDone : Bool
deriving DecidableEq, Repr

/-- `connection.NewConnection`. -/
def NewConnection (destConnID srcConnID : List Nat) (cryptoSetup : CryptoSetup) : Connection :=
  { state := .stateInitial, destConnID := destConnID, srcConnID := srcConnID,
    cryptoSetup := cryptoSetup,
    flowController := NewFlowController 1048576 16777216,
    packetNumberGenerator := 0, closeOnceDone := false }

/-- `Connection.generatePacketNumber`. -/
def Connection.generatePacketNumber (c : Connection) : Nat × Connection :=
  let g := (c.packetNumberGenerator + 1) % U64
  (g, { c with packetNumberGenerator := g })

/-- `Connection.validatePacketNumber`: received number must exceed the
outbound counter. -/
def Connection.validatePacketNumber (c : Connection) (receivedPN : Nat) : Bool :=
  decide (c.packetNumberGenerator < receivedPN)

/-- `Connection.handleInitialPacket`. Results pair the updated connection
with the returned error, mirroring in-place mutation. -/
def Connection.handleInitialPacket (c : Connection) (p : Packet) :
    Connection × Option ConnError :=
  if p.header.version ≠ Version then (c, some (.unsupportedVersion p.header.version))
  else
    match c.cryptoSetup.HandleCryptoFrame p.payload LevelInitial with
    | .error e => (c, some (.initialCryptoFailed e))
    | .ok cs =>
      if c.state = .stateInitial then ({ c with cryptoSetup := cs, state := .stateHandshaking }, none)
      else ({ c with cryptoSetup := cs }, none)

/-- `Connection.handleHandshakePacket`. -/
def Connection.handleHandshakePacket (c : Connection) (p : Packet) :
    Connection × Option ConnError :=
  match c.cryptoSetup.HandleCryptoFrame p.payload LevelHandshake with
  | .error e => (c, some (.handshakeCryptoFailed e))
  | .ok cs =>
    if cs.HandshakeComplete then
      ({ c with state := .stateEstablished, cryptoSetup := cs.SetHandshakeComplete }, none)
    else ({ c with cryptoSetup := cs }, none)

/-- `Connection.handleOneRTTPacket`. `OnDataSent` runs before the
handshake-completeness check, so the flow counter is already incremented
on every path past the flow-control check — including the
handshake-incomplete rejection. -/
def Connection.handleOneRTTPacket (c : Connection) (p : Packet) :
    Connection × Option ConnError :=
  if c.state ≠ .stateEstablished then (c, some .notEstablished)
  else if !c.flowController.CanSend p.payload.length then (c, some .flowControlExceeded)
  else if 0 < p.payload.length then
    if !c.cryptoSetup.HandshakeComplete then
      ({ c with flowController := c.flowController.OnDataSent p.payload.length },
       some .handshakeIncomplete)
    else
      ({ c with flowController :=
          (c.flowController.OnDataSent p.payload.length).UpdateWindow p.payload.length }, none)
  else ({ c with flowController := c.flowController.OnDataSent p.payload.length }, none)

/-- `Connection.HandlePacket`. -/
def Connection.HandlePacket (c : Connection) (p : Packet) : Connection × Option ConnError :=
  if !c.validatePacketNumber p.header.packetNumber then
    (c, some (.invalidPacketNumber p.header.packetNumber))
  else if p.header.type = PacketTypeInitial then c.handleInitialPacket p
  else if p.header.type = PacketTypeHandshake then c.handleHandshakePacket p
  else if p.header.type = PacketTypeOneRTT then c.handleOneRTTPacket p
  else (c, none)

/-- `Connection.Close`: the `sync.Once` body runs at most once; the error
result is always nil. -/
def Connection.Close (c : Connection) : Connection :=
  if c.closeOnceDone then c
  else { c with state := .stateClosed, closeOnceDone := true }

/-! ## Traces

Operation sequences for the temporal and interleaving properties. -/

/-- One step of the dispatch loop against a connection: an inbound packet
handed to `HandlePacket`, or a `Close` call. -/
inductive ConnAct
  | pkt (p : Packet)
  | close
deriving DecidableEq, Repr

/-- Apply one action; the mutated connection of `HandlePacket` is kept
whether or not an error was returned, as in Go. -/
def Connection.applyAct (c : Connection) : ConnAct → Connection
  | .pkt p => (c.HandlePacket p).1
  | .close => c.Close

/-- Apply a sequence of actions in order. -/
def Connection.applyActs (c : Connection) (acts : List ConnAct) : Connection :=
  acts.foldl Connection.applyAct c

/-- Feed a sequence of inbound packets through `HandlePacket`. -/
def Connection.handleAll (c : Connection) (ps : List Packet) : Connection :=
  ps.foldl (fun c p => (c.HandlePacket p).1) c

/-- One mutating flow-control call. -/
inductive FlowOp
  | dataSent (n : Nat)
  | windowUpdate (n : Nat)
deriving DecidableEq, Repr

/-- Apply one flow-control call. -/
def FlowController.applyOp (f : FlowController) : FlowOp → FlowController
  | .dataSent n => f.OnDataSent n
  | .windowUpdate n => f.UpdateWindow n

/-- Apply a sequence of `OnDataSent`/`UpdateWindow` calls in order. -/
def FlowController.applyOps (f : FlowController) (ops : List FlowOp) : FlowController :=
  ops.foldl FlowController.applyOp f

/-! ## Concrete states used in the evaluations below -/

/-- A 22-byte datagram whose destination-connection-ID length byte is 16:
`01 00000001 10` followed by sixteen ID bytes. -/
def shortSrcLenInput : List Nat := [1, 0, 0, 0, 1, 16] ++ List.replicate 16 0

/-- A crypto state with a non-nil handshake buffer. -/
def csWithBuffer : CryptoSetup := { NewCryptoSetup none with handshakeData := some [7] }

/-- A crypto state holding a stored 0-RTT key. -/
def csWithKey : CryptoSetup := { NewCryptoSetup none with zeroRTTKey := some [9] }

/-- A completed crypto state whose 96-byte handshake buffer is all zeros. -/
def csBufZero : CryptoSetup :=
  { tlsConfig := some { hasClientSessionCache := true, randBytes := none },
    level := LevelOneRTT, handshakeComplete := true,
    handshakeData := some (List.replicate 96 0), sessionTicket := none, zeroRTTKey := none }

/-- Like `csBufZero` but with the last 32 buffer bytes set to 1: the first
32 bytes agree with `csBufZero`, the last 32 differ. -/
def csBufTail1 : CryptoSetup :=
  { csBufZero with handshakeData := some (List.replicate 64 0 ++ List.replicate 32 1) }

/-- Like `csBufZero` but with the first 32 buffer bytes set to 5: the last
32 bytes agree with `csBufZero`, the first 32 differ. -/
def csBufHead5 : CryptoSetup :=
  { csBufZero with handshakeData := some (List.replicate 32 5 ++ List.replicate 64 0) }

/-- An established connection whose crypto handshake is not complete (the
struct is constructible in the connection package; packet dispatch alone
never produces it). -/
def connEstablishedIncomplete : Connection :=
  { NewConnection [] [] (NewCryptoSetup none) with state := .stateEstablished }

/-- A OneRTT packet with a one-byte payload. -/
def oneRTTPacket1 : Packet :=
  { header := { type := PacketTypeOneRTT, version := Version, destConnID := [],
                srcConnID := [], packetNumber := 1, payloadLen := 0 },
    payload := [0] }

/-- A closed connection with a fresh crypto state. -/
def closedConn : Connection :=
  (NewConnection [] [] (NewCryptoSetup none)).Close

/-!
# Theorems

## Byte-level lemmas
-/

@[simp] theorem beBytes_length (w v : Nat) : (beBytes w v).length = w := by
  induction w generalizing v with
  | zero => rfl
  | succ w ih => simp [beBytes, ih]

theorem beVal_foldl (l : List Nat) (a : Nat) :
    l.foldl (fun a b => a * 256 + b) a = a * 256 ^ l.length + beVal l := by
  induction l generalizing a with
  | nil => simp [beVal]
  | cons x xs ih =>
    simp only [List.foldl_cons, beVal, List.length_cons]
    rw [ih (a * 256 + x), ih (0 * 256 + x)]
    ring

theorem beVal_append (l m : List Nat) :
    beVal (l ++ m) = beVal l * 256 ^ m.length + beVal m := by
  simp only [beVal, List.foldl_append]
  exact beVal_foldl m _

@[simp] theorem beVal_beBytes (w v : Nat) : beVal (beBytes w v) = v % 256 ^ w := by
  induction w generalizing v with
  | zero => simp [beBytes, beVal, Nat.mod_one]
  | succ w ih =>
    rw [beBytes, beVal_append, ih]
    simp only [beVal, List.foldl_cons, List.foldl_nil, List.length_cons, List.length_nil,
      pow_one, pow_zero, one_mul, Nat.zero_mul, Nat.zero_add]
    rw [pow_succ, Nat.mul_comm (256 ^ w) 256, Nat.mod_mul]
    ring

theorem beBytes_lt (w v : Nat) : ∀ b ∈ beBytes w v, b < 256 := by
  induction w generalizing v with
  | zero => simp [beBytes]
  | succ w ih =>
    intro b hb
    rw [beBytes] at hb
    rcases List.mem_append.mp hb with h | h
    · exact ih _ _ h
    · simp only [List.mem_singleton] at h
      exact h ▸ Nat.mod_lt _ (by norm_num)

example : Packet.Pack
    { header := { type := 1, version := 1, destConnID := [1, 2, 3, 4],
                  srcConnID := [5, 6, 7, 8], packetNumber := 1, payloadLen := 0 },
      payload := [] } =
    some [1, 0, 0, 0, 1, 4, 1, 2, 3, 4, 4, 5, 6, 7, 8,
          0, 0, 0, 0, 0, 0, 0, 1, 0, 0, 0, 0, 0, 0, 0, 0] := by decide

example : Unpack [1, 0, 0, 0, 1, 4, 1, 2, 3, 4, 4, 5, 6, 7, 8,
      0, 0, 0, 0, 0, 0, 0, 1, 0, 0, 0, 0, 0, 0, 0, 0] =
    .ok { header := { type := 1, version := 1, destConnID := [1, 2, 3, 4],
                      srcConnID := [5, 6, 7, 8], packetNumber := 1, payloadLen := 0 },
          payload := [] } := by decide

/-! ## SHA-256 / HMAC lemmas and test vectors -/

@[simp] theorem sha256_length (msg : List Nat) : (sha256 msg).length = 32 := by
  simp [sha256]

@[simp] theorem hmacSha256_length (key msg : List Nat) : (hmacSha256 key msg).length = 32 :=
  sha256_length _

@[simp] theorem hkdfExtract_length (salt ikm : List Nat) : (hkdfExtract salt ikm).length = 32 :=
  hmacSha256_length salt ikm

set_option maxRecDepth 10000 in
example : sha256 [] =
    [0xe3, 0xb0, 0xc4, 0x42, 0x98, 0xfc, 0x1c, 0x14, 0x9a, 0xfb, 0xf4, 0xc8, 0x99, 0x6f, 0xb9,
     0x24, 0x27, 0xae, 0x41, 0xe4, 0x64, 0x9b, 0x93, 0x4c, 0xa4, 0x95, 0x99, 0x1b, 0x78, 0x52,
     0xb8, 0x55] := by decide

set_option maxRecDepth 10000 in
example : sha256 [0x61, 0x62, 0x63] =
    [0xba, 0x78, 0x16, 0xbf, 0x8f, 0x01, 0xcf, 0xea, 0x41, 0x41, 0x40, 0xde, 0x5d, 0xae, 0x22,
     0x23, 0xb0, 0x03, 0x61, 0xa3, 0x96, 0x17, 0x7a, 0x9c, 0xb4, 0x10, 0xff, 0x61, 0xf2, 0x00,
     0x15, 0xad] := by decide

set_option maxRecDepth 10000 in
example : hmacSha256 [0x4a, 0x65, 0x66, 0x65]
    [0x77, 0x68, 0x61, 0x74, 0x20, 0x64, 0x6f, 0x20, 0x79, 0x61, 0x20, 0x77, 0x61, 0x6e, 0x74,
     0x20, 0x66, 0x6f, 0x72, 0x20, 0x6e, 0x6f, 0x74, 0x68, 0x69, 0x6e, 0x67, 0x3f] =
    [0x5b, 0xdc, 0xc1, 0x46, 0xbf, 0x60, 0x75, 0x4e, 0x6a, 0x04, 0x24, 0x26, 0x08, 0x95, 0x75,
     0xc7, 0x5a, 0x00, 0x3f, 0x08, 0x9d, 0x27, 0x39, 0x83, 0x9d, 0xec, 0x58, 0xb9, 0x64, 0xec,
     0x38, 0x43] := by decide

/-! ## `TryZeroRTT` characterization -/

/-- With a non-empty ticket id and a non-nil handshake buffer,
`TryZeroRTT` derives, stores and returns the 0-RTT key. -/
theorem tryZeroRTT_pos (c : CryptoSetup) (tid k : List Nat)
    (ht : ¬tid.length = 0) (hbuf : ¬c.handshakeData = none)
    (hk : k = hkdfExtract (strBytes "tls13 0-rtt " ++ c.handshakeData.getD []) tid) :
    c.TryZeroRTT tid = ((true, some k), { c with zeroRTTKey := some k }) := by
  subst hk
  unfold CryptoSetup.TryZeroRTT
  rw [if_neg (by push_neg; exact ⟨ht, hbuf⟩)]
  simp [hkdfExtract_length]

/-- C2 (the code at the failing input): the 22-byte datagram
`01 00000001 10` followed by sixteen ID bytes passes the destination-ID
bounds check with the offset landing exactly at the end of the data, and
the unguarded read of the source-ID length byte is an out-of-range index —
a Go runtime panic, where the claim requires a typed truncation error. -/
theorem unpack_out_of_range_read :
    Unpack shortSrcLenInput = .panicked ∧ shortSrcLenInput.length = 22 := by decide

/-- C3 counterexample: with a non-empty handshake buffer, calling
`TryZeroRTT` twice in a row with the same ticket id succeeds **both**
times — the second call returns `true`, not the `(false, nil)` the claim
requires of a repeat within 10 seconds (the code keeps no replay window
and no timestamps at all, so the result is time-independent). -/
theorem tryZeroRTT_immediate_replay_succeeds :
    ((csWithBuffer.TryZeroRTT [1]).2.TryZeroRTT [1]).1.1 = true := by decide

/-- C3 (amended): `TryZeroRTT` performs no anti-replay. For every state
with a non-nil handshake buffer and every non-empty ticket id, each call
returns `(true, key)` and stores the key, and an immediate repeat with the
same ticket id succeeds again. -/
theorem tryZeroRTT_no_antireplay (c : CryptoSetup) (tid : List Nat)
    (ht : tid ≠ []) (hbuf : c.handshakeData ≠ none) :
    (c.TryZeroRTT tid).1.1 = true ∧
    (c.TryZeroRTT tid).2.zeroRTTKey = (c.TryZeroRTT tid).1.2 ∧
    ((c.TryZeroRTT tid).2.TryZeroRTT tid).1.1 = true := by
  have ht' : ¬tid.length = 0 := fun h => ht (List.length_eq_zero.mp h)
  have h1 := tryZeroRTT_pos c tid _ ht' hbuf rfl
  have h2 := tryZeroRTT_pos
    { c with zeroRTTKey := some (hkdfExtract (strBytes "tls13 0-rtt " ++ c.handshakeData.getD []) tid) }
    tid _ ht' hbuf rfl
  refine ⟨?_, ?_, ?_⟩
  · rw [h1]
  · rw [h1]
  · rw [h1]
    dsimp only
    rw [h2]

/-- C3 witness. -/
theorem tryZeroRTT_no_antireplay_witness :
    (csWithBuffer.TryZeroRTT [1]).1.1 = true ∧
    (csWithBuffer.TryZeroRTT [1]).2.zeroRTTKey = (csWithBuffer.TryZeroRTT [1]).1.2 ∧
    ((csWithBuffer.TryZeroRTT [1]).2.TryZeroRTT [1]).1.1 = true :=
  tryZeroRTT_no_antireplay csWithBuffer [1] (by decide) (by decide)

/-- C8: after any interleaving of `OnDataSent` and `UpdateWindow` calls,
`CanSend n` is true exactly when `bytesInFlight + n ≤ windowSize` at that
instant, the sum taken in the code's `uint64` arithmetic; the window size
itself is never changed by these calls. -/
theorem canSend_iff_window (f : FlowController) (ops : List FlowOp) (n : Nat) :
    ((f.applyOps ops).CanSend n = true ↔
      ((f.applyOps ops).bytesInFlight + n) % U64 ≤ (f.applyOps ops).windowSize) ∧
    (f.applyOps ops).windowSize = f.windowSize := by
  constructor
  · simp [FlowController.CanSend]
  · induction ops generalizing f with
    | nil => rfl
    | cons a ops ih =>
      rw [show f.applyOps (a :: ops) = (f.applyOp a).applyOps ops from rfl, ih]
      cases a <;> rfl

/-! ## Codec round trip -/

/-- `intWrap` is the identity on the signed-64-bit range. -/
theorem intWrap_id (x : Int) (h0 : 0 ≤ x) (h1 : x < 9223372036854775808) : intWrap x = x := by
  have hI : (I63 : Int) = 9223372036854775808 := by norm_num [I63]
  have hU : (U64 : Int) = 18446744073709551616 := by norm_num [U64]
  unfold intWrap
  rw [hI, hU, Int.emod_eq_of_lt (by omega) (by omega)]
  omega

/-- Decoding the canonical encoded form recovers every encoded field. -/
theorem unpack_packed (t v pn : Nat) (dID sID pl : List Nat)
    (hdl : dID.length ≤ 255) (hsl : sID.length ≤ 255)
    (hv : v < 2 ^ 32) (hpn : pn < 2 ^ 64) (hL : pl.length ≤ 65535) :
    Unpack (t :: (beBytes 4 v ++ dID.length ::
        (dID ++ sID.length :: (sID ++ (beBytes 8 pn ++ (beBytes 8 pl.length ++ pl)))))) =
      .ok { header := { type := t, version := v, destConnID := dID, srcConnID := sID,
                        packetNumber := pn, payloadLen := 0 }, payload := pl } := by
  set R4 : List Nat := beBytes 8 pn ++ (beBytes 8 pl.length ++ pl) with hR4
  set R3 : List Nat := sID ++ R4 with hR3
  set R2 : List Nat := dID ++ sID.length :: R3 with hR2
  set R1 : List Nat := beBytes 4 v ++ dID.length :: R2 with hR1
  set d : List Nat := t :: R1 with hdd
  have hlen : d.length = 23 + dID.length + sID.length + pl.length := by
    simp only [hdd, hR1, hR2, hR3, hR4, List.length_cons, List.length_append, beBytes_length]
    omega
  have d1 : d.drop 1 = R1 := by rw [hdd]; rfl
  have hhead : d.headD 0 = t := by rw [hdd]; rfl
  have hver : (d.drop 1).take 4 = beBytes 4 v := by
    rw [d1, hR1, List.take_left' (beBytes_length 4 v)]
  have d5 : d.drop 5 = dID.length :: R2 := by
    rw [show (5 : Nat) = 1 + 4 from rfl, ← List.drop_drop, d1, hR1,
      List.drop_left' (beBytes_length 4 v)]
  have hdlen5 : (d.drop 5).headD 0 = dID.length := by rw [d5]; rfl
  have d6 : d.drop 6 = R2 := by
    rw [show (6 : Nat) = 5 + 1 from rfl, ← List.drop_drop, d5]
    rfl
  have ddest : (d.drop 6).take dID.length = dID := by
    rw [d6, hR2, List.take_left]
  have d6n : d.drop (6 + dID.length) = sID.length :: R3 := by
    rw [← List.drop_drop, d6, hR2, List.drop_left]
  have hslen : (d.drop (6 + dID.length)).headD 0 = sID.length := by rw [d6n]; rfl
  have d7n : d.drop (7 + dID.length) = R3 := by
    rw [show 7 + dID.length = 6 + dID.length + 1 from by omega, ← List.drop_drop, d6n]
    rfl
  have hsrc : (d.drop (7 + dID.length)).take sID.length = sID := by
    rw [d7n, hR3, List.take_left]
  have dpn : d.drop (7 + dID.length + sID.length) = R4 := by
    rw [← List.drop_drop, d7n, hR3, List.drop_left]
  have hpn8 : (d.drop (7 + dID.length + sID.length)).take 8 = beBytes 8 pn := by
    rw [dpn, hR4, List.take_left' (beBytes_length 8 pn)]
  have dpl : d.drop (7 + dID.length + sID.length + 8) = beBytes 8 pl.length ++ pl := by
    rw [← List.drop_drop, dpn, hR4, List.drop_left' (beBytes_length 8 pn)]
  have hpl8 : (d.drop (7 + dID.length + sID.length + 8)).take 8 = beBytes 8 pl.length := by
    rw [dpl, List.take_left' (beBytes_length 8 pl.length)]
  have dfinal : d.drop (7 + dID.length + sID.length + 16) = pl := by
    rw [show 7 + dID.length + sID.length + 16 = 7 + dID.length + sID.length + 8 + 8 from by
        omega,
      ← List.drop_drop, dpl, List.drop_left' (beBytes_length 8 pl.length)]
  have hvmod : v % 256 ^ 4 = v := by
    rw [show (256 : Nat) ^ 4 = 2 ^ 32 from by norm_num]
    exact Nat.mod_eq_of_lt hv
  have hpnmod : pn % 256 ^ 8 = pn := by
    rw [show (256 : Nat) ^ 8 = 2 ^ 64 from by norm_num]
    exact Nat.mod_eq_of_lt hpn
  have hplmod : pl.length % 256 ^ 8 = pl.length := by
    rw [show (256 : Nat) ^ 8 = 2 ^ 64 from by norm_num]
    exact Nat.mod_eq_of_lt (by omega)
  simp only [Unpack]
  rw [if_neg (show ¬d.length < 22 by omega)]
  simp only [List.drop_zero]
  rw [hhead, hver, beVal_beBytes, hvmod, hdlen5]
  rw [if_neg (show ¬6 + dID.length > d.length by omega)]
  rw [ddest]
  rw [if_neg (show ¬6 + dID.length ≥ d.length by omega)]
  rw [hslen]
  rw [if_neg (show ¬7 + dID.length + sID.length > d.length by omega)]
  rw [hsrc]
  rw [if_neg (show ¬7 + dID.length + sID.length + 8 > d.length by omega)]
  rw [hpn8, beVal_beBytes, hpnmod]
  rw [if_neg (show ¬7 + dID.length + sID.length + 16 > d.length by omega)]
  rw [hpl8, beVal_beBytes, hplmod]
  rw [intWrap_id (pl.length : Int) (by positivity) (by omega)]
  have hc0 : (0 : Int) ≤ ((7 + dID.length + sID.length + 16 : Nat) : Int) + (pl.length : Int) := by
    positivity
  have hc1 : ((7 + dID.length + sID.length + 16 : Nat) : Int) + (pl.length : Int) <
      9223372036854775808 := by
    push_cast
    omega
  rw [intWrap_id _ hc0 hc1]
  rw [if_neg (show ¬((7 + dID.length + sID.length + 16 : Nat) : Int) + (pl.length : Int) >
      (d.length : Int) from by push_cast; omega)]
  rw [if_neg (show ¬((7 + dID.length + sID.length + 16 : Nat) : Int) + (pl.length : Int) <
      ((7 + dID.length + sID.length + 16 : Nat) : Int) from by push_cast; omega)]
  rw [show ((7 + dID.length + sID.length + 16 : Nat) : Int) + (pl.length : Int) -
      ((7 + dID.length + sID.length + 16 : Nat) : Int) = (pl.length : Int) from by ring]
  rw [Int.toNat_natCast, dfinal, List.take_length]

/-- C1: for every valid packet (recognized type, connection-ID lengths at
most 255, payload at most 65535 bytes, fields within their Go integer
widths), `Packet.Pack` succeeds and `packet.Unpack` of the produced bytes
recovers the header type, version, destination and source connection IDs,
packet number and payload exactly. (`Unpack` leaves the Go `PayloadLen`
header field zero; it is not part of the claimed equality.) -/
theorem packet_roundtrip (p : Packet)
    (ht : validPacketType p.header.type = true)
    (hdl : p.header.destConnID.length ≤ 255)
    (hsl : p.header.srcConnID.length ≤ 255)
    (hpl : p.payload.length ≤ 65535)
    (hv : p.header.version < 2 ^ 32)
    (hpn : p.header.packetNumber < 2 ^ 64) :
    ∃ bytes, p.Pack = some bytes ∧
      Unpack bytes =
        .ok { header := { type := p.header.type, version := p.header.version,
                          destConnID := p.header.destConnID, srcConnID := p.header.srcConnID,
                          packetNumber := p.header.packetNumber, payloadLen := 0 },
              payload := p.payload } := by
  obtain ⟨⟨t, v, dID, sID, pn, plen⟩, pl⟩ := p
  dsimp only at ht hdl hsl hpl hv hpn ⊢
  refine ⟨t :: (beBytes 4 v ++ dID.length ::
      (dID ++ sID.length :: (sID ++ (beBytes 8 pn ++ (beBytes 8 pl.length ++ pl))))), ?_, ?_⟩
  · unfold Packet.Pack
    rw [if_pos ht]
    simp only [Option.some.injEq]
    rw [Nat.mod_eq_of_lt (show dID.length < 256 by omega),
        Nat.mod_eq_of_lt (show sID.length < 256 by omega)]
    simp [List.append_assoc]
  · exact unpack_packed t v pn dID sID pl hdl hsl hv hpn hpl

/-- C1 witness. -/
theorem packet_roundtrip_witness :
    ∃ bytes,
      Packet.Pack { header := { type := 1, version := 1, destConnID := [1, 2, 3, 4],
                                srcConnID := [5, 6, 7, 8], packetNumber := 1, payloadLen := 0 },
                    payload := [9] } = some bytes ∧
      Unpack bytes =
        .ok { header := { type := 1, version := 1, destConnID := [1, 2, 3, 4],
                          srcConnID := [5, 6, 7, 8], packetNumber := 1, payloadLen := 0 },
              payload := [9] } :=
  packet_roundtrip
    { header := { type := 1, version := 1, destConnID := [1, 2, 3, 4],
                  srcConnID := [5, 6, 7, 8], packetNumber := 1, payloadLen := 0 },
      payload := [9] }
    (by decide) (by decide) (by decide) (by decide) (by decide) (by decide)

/-! ## Handler case lemmas -/

/-- `handleInitialPacket` never reports an invalid packet number, and on
error leaves the connection unchanged. -/
theorem handleInitialPacket_error_cases (c : Connection) (p : Packet) :
    ∀ e, (c.handleInitialPacket p).2 = some e →
      (c.handleInitialPacket p).1 = c ∧
      e ≠ .handshakeIncomplete ∧ ∀ k, e ≠ .invalidPacketNumber k := by
  unfold Connection.handleInitialPacket
  split
  · intro e he
    simp only [Option.some.injEq] at he
    subst he
    exact ⟨rfl, by simp, by simp⟩
  · split
    · intro e he
      simp only [Option.some.injEq] at he
      subst he
      exact ⟨rfl, by simp, by simp⟩
    · split
      · intro e he
        simp at he
      · intro e he
        simp at he

/-- `handleHandshakePacket` never reports an invalid packet number, and on
error leaves the connection unchanged. -/
theorem handleHandshakePacket_error_cases (c : Connection) (p : Packet) :
    ∀ e, (c.handleHandshakePacket p).2 = some e →
      (c.handleHandshakePacket p).1 = c ∧
      e ≠ .handshakeIncomplete ∧ ∀ k, e ≠ .invalidPacketNumber k := by
  unfold Connection.handleHandshakePacket
  split
  · intro e he
    simp only [Option.some.injEq] at he
    subst he
    exact ⟨rfl, by simp, by simp⟩
  · split
    · intro e he
      simp at he
    · intro e he
      simp at he

/-- `handleOneRTTPacket` never reports an invalid packet number; on error
it leaves the connection unchanged except for the handshake-incomplete
rejection, which keeps the `OnDataSent` increment. -/
theorem handleOneRTTPacket_error_cases (c : Connection) (p : Packet) :
    ∀ e, (c.handleOneRTTPacket p).2 = some e →
      (∀ k, e ≠ .invalidPacketNumber k) ∧
      (e = .handshakeIncomplete →
        (c.handleOneRTTPacket p).1 =
          { c with flowController := c.flowController.OnDataSent p.payload.length }) ∧
      (e ≠ .handshakeIncomplete → (c.handleOneRTTPacket p).1 = c) := by
  unfold Connection.handleOneRTTPacket
  split
  · intro e he
    simp only [Option.some.injEq] at he
    subst he
    exact ⟨by simp, by simp, fun _ => rfl⟩
  · split
    · intro e he
      simp only [Option.some.injEq] at he
      subst he
      exact ⟨by simp, by simp, fun _ => rfl⟩
    · split
      · split
        · intro e he
          simp only [Option.some.injEq] at he
          subst he
          exact ⟨by simp, fun _ => rfl, by simp⟩
        · intro e he
          simp at he
      · intro e he
        simp at he

/-- C7: `HandlePacket` rejects a packet with the invalid-packet-number
error exactly when its packet number is not strictly greater than the
outbound counter, and such a rejection leaves the connection unchanged. -/
theorem handlePacket_pn_admission (c : Connection) (p : Packet) :
    ((c.HandlePacket p).2 = some (.invalidPacketNumber p.header.packetNumber) ↔
      p.header.packetNumber ≤ c.packetNumberGenerator) ∧
    (p.header.packetNumber ≤ c.packetNumberGenerator → (c.HandlePacket p).1 = c) := by
  by_cases hv : c.packetNumberGenerator < p.header.packetNumber
  · have hdis : ∀ k, (c.HandlePacket p).2 ≠ some (.invalidPacketNumber k) := by
      intro k habs
      unfold Connection.HandlePacket at habs
      rw [if_neg (by simp [Connection.validatePacketNumber, hv])] at habs
      split at habs
      · exact (handleInitialPacket_error_cases c p _ habs).2.2 k rfl
      · split at habs
        · exact (handleHandshakePacket_error_cases c p _ habs).2.2 k rfl
        · split at habs
          · exact (handleOneRTTPacket_error_cases c p _ habs).1 k rfl
          · simp at habs
    constructor
    · exact ⟨fun h => absurd h (hdis _), fun h => absurd h (by omega)⟩
    · intro h
      exact absurd h (by omega)
  · have hres : c.HandlePacket p = (c, some (.invalidPacketNumber p.header.packetNumber)) := by
      unfold Connection.HandlePacket
      rw [if_pos (by simp [Connection.validatePacketNumber, hv])]
    rw [hres]
    exact ⟨by simp [Nat.le_of_not_lt hv], fun _ => rfl⟩

/-- C7 witness. -/
theorem handlePacket_pn_admission_witness :
    ((NewConnection [] [] (NewCryptoSetup none)).HandlePacket
        { header := { type := 3, version := 1, destConnID := [], srcConnID := [],
                      packetNumber := 0, payloadLen := 0 }, payload := [] }).1 =
      NewConnection [] [] (NewCryptoSetup none) :=
  (handlePacket_pn_admission (NewConnection [] [] (NewCryptoSetup none))
    { header := { type := 3, version := 1, destConnID := [], srcConnID := [],
                  packetNumber := 0, payloadLen := 0 }, payload := [] }).2 (by decide)

/-- C4 counterexample: an established connection whose crypto handshake is
incomplete rejects a non-empty OneRTT payload with the
handshake-incomplete error, yet the connection record **is** mutated —
`bytesInFlight` keeps the `OnDataSent` increment, so an error return does
not imply the record was left as before. -/
theorem handshakeIncomplete_rejection_mutates :
    (connEstablishedIncomplete.HandlePacket oneRTTPacket1).2 = some .handshakeIncomplete ∧
    (connEstablishedIncomplete.HandlePacket oneRTTPacket1).1 ≠ connEstablishedIncomplete ∧
    (connEstablishedIncomplete.HandlePacket oneRTTPacket1).1.flowController.bytesInFlight = 1 ∧
    connEstablishedIncomplete.flowController.bytesInFlight = 0 := by decide

/-- C4 (amended): every error return of `HandlePacket` leaves the
connection record exactly as before — state, flow counters and crypto
state — **except** the handshake-incomplete rejection of a non-empty
OneRTT payload, which leaves `bytesInFlight` incremented by the payload
length (state and crypto still unchanged). In particular a flow-control
rejection mutates nothing. -/
theorem handlePacket_error_mutation (c : Connection) (p : Packet) (e : ConnError)
    (he : (c.HandlePacket p).2 = some e) :
    (e ≠ .handshakeIncomplete → (c.HandlePacket p).1 = c) ∧
    (e = .handshakeIncomplete →
      (c.HandlePacket p).1 =
        { c with flowController := c.flowController.OnDataSent p.payload.length }) := by
  unfold Connection.HandlePacket at he ⊢
  by_cases hval : (!c.validatePacketNumber p.header.packetNumber) = true
  · rw [if_pos hval] at he ⊢
    simp only [Option.some.injEq] at he
    subst he
    exact ⟨fun _ => rfl, by simp⟩
  · rw [if_neg hval] at he ⊢
    by_cases h1 : p.header.type = PacketTypeInitial
    · rw [if_pos h1] at he ⊢
      obtain ⟨ha, hb, _⟩ := handleInitialPacket_error_cases c p e he
      exact ⟨fun _ => ha, fun habs => absurd habs hb⟩
    · rw [if_neg h1] at he ⊢
      by_cases h2 : p.header.type = PacketTypeHandshake
      · rw [if_pos h2] at he ⊢
        obtain ⟨ha, hb, _⟩ := handleHandshakePacket_error_cases c p e he
        exact ⟨fun _ => ha, fun habs => absurd habs hb⟩
      · rw [if_neg h2] at he ⊢
        by_cases h3 : p.header.type = PacketTypeOneRTT
        · rw [if_pos h3] at he ⊢
          obtain ⟨_, hb, hd⟩ := handleOneRTTPacket_error_cases c p e he
          exact ⟨hd, hb⟩
        · rw [if_neg h3] at he ⊢
          simp at he

/-- C4 witness (a flow-control style rejection: invalid packet number
leaves the record unchanged). -/
theorem handlePacket_error_mutation_witness :
    ((NewConnection [] [] (NewCryptoSetup none)).HandlePacket
        { header := { type := 3, version := 1, destConnID := [], srcConnID := [],
                      packetNumber := 0, payloadLen := 0 }, payload := [] }).1 =
      NewConnection [] [] (NewCryptoSetup none) :=
  (handlePacket_error_mutation (NewConnection [] [] (NewCryptoSetup none))
      { header := { type := 3, version := 1, destConnID := [], srcConnID := [],
                    packetNumber := 0, payloadLen := 0 }, payload := [] }
      (.invalidPacketNumber 0) (by decide)).1 (by decide)

/-- `HandleCryptoFrame` either rejects a stale level and changes nothing,
or appends the data to the handshake buffer. -/
theorem handleCryptoFrame_cases (c : CryptoSetup) (data : List Nat) (level : Nat) :
    (level < c.level ∧ c.HandleCryptoFrame data level = .error .staleCryptoLevel) ∨
    (¬level < c.level ∧
      c.HandleCryptoFrame data level = .ok { c with handshakeData := goAppend c.handshakeData data }) := by
  unfold CryptoSetup.HandleCryptoFrame
  by_cases hl : level < c.level
  · exact .inl ⟨hl, by rw [if_pos hl]⟩
  · exact .inr ⟨hl, by rw [if_neg hl]⟩

/-- One dispatch or close step out of a closed connection stays closed and
preserves the crypto invariant `handshakeComplete → level = OneRTT`. -/
theorem applyAct_closed_step (c : Connection) (a : ConnAct)
    (h : c.state = .stateClosed)
    (hinv : c.cryptoSetup.handshakeComplete = true → c.cryptoSetup.level = LevelOneRTT) :
    (c.applyAct a).state = .stateClosed ∧
    ((c.applyAct a).cryptoSetup.handshakeComplete = true →
      (c.applyAct a).cryptoSetup.level = LevelOneRTT) := by
  cases a with
  | close =>
    dsimp only [Connection.applyAct]
    unfold Connection.Close
    split
    · exact ⟨h, hinv⟩
    · exact ⟨rfl, hinv⟩
  | pkt p =>
    dsimp only [Connection.applyAct]
    unfold Connection.HandlePacket
    by_cases hval : (!c.validatePacketNumber p.header.packetNumber) = true
    · rw [if_pos hval]
      exact ⟨h, hinv⟩
    · rw [if_neg hval]
      by_cases h1 : p.header.type = PacketTypeInitial
      · rw [if_pos h1]
        unfold Connection.handleInitialPacket
        split
        · exact ⟨h, hinv⟩
        · rcases handleCryptoFrame_cases c.cryptoSetup p.payload LevelInitial with
            ⟨_, heq⟩ | ⟨_, heq⟩
          · simp only [heq]
            exact ⟨h, hinv⟩
          · simp only [heq]
            rw [if_neg (by rw [h]; simp)]
            exact ⟨h, hinv⟩
      · rw [if_neg h1]
        by_cases h2 : p.header.type = PacketTypeHandshake
        · rw [if_pos h2]
          unfold Connection.handleHandshakePacket
          rcases handleCryptoFrame_cases c.cryptoSetup p.payload LevelHandshake with
            ⟨_, heq⟩ | ⟨hl, heq⟩
          · simp only [heq]
            exact ⟨h, hinv⟩
          · simp only [heq]
            by_cases hc : c.cryptoSetup.handshakeComplete = true
            · exact absurd (by rw [hinv hc]; norm_num [LevelHandshake, LevelOneRTT]) hl
            · rw [if_neg (by simp only [CryptoSetup.HandshakeComplete]; exact hc)]
              exact ⟨h, hinv⟩
        · rw [if_neg h2]
          by_cases h3 : p.header.type = PacketTypeOneRTT
          · rw [if_pos h3]
            unfold Connection.handleOneRTTPacket
            rw [if_pos (by rw [h]; simp)]
            exact ⟨h, hinv⟩
          · rw [if_neg h3]
            exact ⟨h, hinv⟩

/-- The crypto invariant assumed by the terminality theorem holds of every
fresh connection: a new crypto setup has no completed handshake. -/
theorem cryptoInv_initial (cfg : Option TLSConfig) (dest src : List Nat) :
    (NewConnection dest src (NewCryptoSetup cfg)).cryptoSetup.handshakeComplete = true →
    (NewConnection dest src (NewCryptoSetup cfg)).cryptoSetup.level = LevelOneRTT :=
  fun h => absurd h (by simp [NewConnection, NewCryptoSetup])

/-- The crypto invariant is preserved by every dispatch or close step (from
any state): completion is only ever set by `SetHandshakeComplete`, which
also raises the level to OneRTT. -/
theorem applyAct_cryptoInv (c : Connection) (a : ConnAct)
    (hinv : c.cryptoSetup.handshakeComplete = true → c.cryptoSetup.level = LevelOneRTT) :
    (c.applyAct a).cryptoSetup.handshakeComplete = true →
      (c.applyAct a).cryptoSetup.level = LevelOneRTT := by
  cases a with
  | close =>
    dsimp only [Connection.applyAct]
    unfold Connection.Close
    split
    · exact hinv
    · exact hinv
  | pkt p =>
    dsimp only [Connection.applyAct]
    unfold Connection.HandlePacket
    by_cases hval : (!c.validatePacketNumber p.header.packetNumber) = true
    · rw [if_pos hval]
      exact hinv
    · rw [if_neg hval]
      by_cases h1 : p.header.type = PacketTypeInitial
      · rw [if_pos h1]
        unfold Connection.handleInitialPacket
        split
        · exact hinv
        · rcases handleCryptoFrame_cases c.cryptoSetup p.payload LevelInitial with
            ⟨_, heq⟩ | ⟨_, heq⟩
          · simp only [heq]
            exact hinv
          · simp only [heq]
            split
            · exact hinv
            · exact hinv
      · rw [if_neg h1]
        by_cases h2 : p.header.type = PacketTypeHandshake
        · rw [if_pos h2]
          unfold Connection.handleHandshakePacket
          rcases handleCryptoFrame_cases c.cryptoSetup p.payload LevelHandshake with
            ⟨_, heq⟩ | ⟨_, heq⟩
          · simp only [heq]
            exact hinv
          · simp only [heq]
            split
            · exact fun _ => rfl
            · exact hinv
        · rw [if_neg h2]
          by_cases h3 : p.header.type = PacketTypeOneRTT
          · rw [if_pos h3]
            unfold Connection.handleOneRTTPacket
            split
            · exact hinv
            · split
              · exact hinv
              · split
                · split
                  · exact hinv
                  · exact hinv
                · exact hinv
          · rw [if_neg h3]
            exact hinv

/-- C5: Closed is terminal — from a closed connection (whose crypto state
satisfies the package invariant that a completed handshake implies level
OneRTT), no sequence of `HandlePacket` and `Close` calls ever moves the
state away from Closed. -/
theorem closed_is_terminal (c : Connection) (h : c.state = .stateClosed)
    (hinv : c.cryptoSetup.handshakeComplete = true → c.cryptoSetup.level = LevelOneRTT)
    (acts : List ConnAct) :
    (c.applyActs acts).state = .stateClosed := by
  induction acts generalizing c with
  | nil => exact h
  | cons a acts ih =>
    have step := applyAct_closed_step c a h hinv
    exact ih (c.applyAct a) step.1 step.2

/-- C5 witness. -/
theorem closed_is_terminal_witness :
    (closedConn.applyActs [.pkt oneRTTPacket1, .close]).state = .stateClosed :=
  closed_is_terminal closedConn (by decide) (by decide) [.pkt oneRTTPacket1, .close]

/-- One `HandlePacket` step never completes the handshake and never
reaches Established when the handshake is incomplete. -/
theorem handlePacket_step_incomplete (c : Connection) (p : Packet)
    (hc : c.cryptoSetup.handshakeComplete = false) (hs : c.state ≠ .stateEstablished) :
    (c.HandlePacket p).1.cryptoSetup.handshakeComplete = false ∧
    (c.HandlePacket p).1.state ≠ .stateEstablished := by
  unfold Connection.HandlePacket
  by_cases hval : (!c.validatePacketNumber p.header.packetNumber) = true
  · rw [if_pos hval]
    exact ⟨hc, hs⟩
  · rw [if_neg hval]
    by_cases h1 : p.header.type = PacketTypeInitial
    · rw [if_pos h1]
      unfold Connection.handleInitialPacket
      split
      · exact ⟨hc, hs⟩
      · rcases handleCryptoFrame_cases c.cryptoSetup p.payload LevelInitial with
          ⟨_, heq⟩ | ⟨_, heq⟩
        · simp only [heq]
          exact ⟨hc, hs⟩
        · simp only [heq]
          split
          · exact ⟨hc, by simp⟩
          · exact ⟨hc, hs⟩
    · rw [if_neg h1]
      by_cases h2 : p.header.type = PacketTypeHandshake
      · rw [if_pos h2]
        unfold Connection.handleHandshakePacket
        rcases handleCryptoFrame_cases c.cryptoSetup p.payload LevelHandshake with
          ⟨_, heq⟩ | ⟨_, heq⟩
        · simp only [heq]
          exact ⟨hc, hs⟩
        · simp only [heq]
          rw [if_neg (by simp only [CryptoSetup.HandshakeComplete]; simp [hc])]
          exact ⟨hc, hs⟩
      · rw [if_neg h2]
        by_cases h3 : p.header.type = PacketTypeOneRTT
        · rw [if_pos h3]
          unfold Connection.handleOneRTTPacket
          rw [if_pos hs]
          exact ⟨hc, hs⟩
        · rw [if_neg h3]
          exact ⟨hc, hs⟩

/-- C10: starting from a fresh connection with a fresh crypto setup, no
sequence of `HandlePacket` calls alone ever completes the handshake or
reaches Established — `HandleCryptoFrame` never sets completion, and the
Handshake path only promotes when completion already holds, so an external
`SetHandshakeComplete` call outside packet dispatch is required. -/
theorem handlePacket_alone_never_establishes (cfg : Option TLSConfig)
    (dest src : List Nat) (ps : List Packet) :
    ((NewConnection dest src (NewCryptoSetup cfg)).handleAll ps).cryptoSetup.handshakeComplete
        = false ∧
    ((NewConnection dest src (NewCryptoSetup cfg)).handleAll ps).state ≠ .stateEstablished := by
  have gen : ∀ (ps : List Packet) (c : Connection),
      c.cryptoSetup.handshakeComplete = false → c.state ≠ .stateEstablished →
      (c.handleAll ps).cryptoSetup.handshakeComplete = false ∧
      (c.handleAll ps).state ≠ .stateEstablished := by
    intro ps
    induction ps with
    | nil => exact fun c h1 h2 => ⟨h1, h2⟩
    | cons p ps ih =>
      intro c h1 h2
      have step := handlePacket_step_incomplete c p h1 h2
      exact ih _ step.1 step.2
  exact gen ps _ rfl (by simp [NewConnection])

/-! ## `GetCryptoData` at level OneRTT -/

/-- At level OneRTT, `GetCryptoData` is the application-secret derivation
guarded by the TLS-config nil check. -/
theorem getCryptoData_oneRTT (c : CryptoSetup) :
    c.GetCryptoData LevelOneRTT =
      if c.tlsConfig = none then none else c.generateApplicationSecrets := by
  unfold CryptoSetup.GetCryptoData
  by_cases ht : c.tlsConfig = none
  · rw [if_pos ht, if_pos ht]
  · rw [if_neg ht, if_neg ht, if_neg (by norm_num [LevelOneRTT, LevelInitial]),
      if_neg (by norm_num [LevelOneRTT, LevelHandshake]), if_pos rfl]

/-- Without a completed handshake and at least 96 buffered bytes, the
application-secret derivation yields nothing. -/
theorem genAppSecrets_none (c : CryptoSetup)
    (h : ¬(c.handshakeComplete = true ∧ 96 ≤ (c.handshakeData.getD []).length)) :
    c.generateApplicationSecrets = none := by
  unfold CryptoSetup.generateApplicationSecrets
  by_cases hc : c.handshakeComplete = true
  · have hlen : (c.handshakeData.getD []).length < 96 := by
      rcases not_and.mp h hc with h'
      omega
    by_cases hd : c.handshakeData = none
    · rw [if_pos (Or.inr hd)]
    · rw [if_neg (by push_neg; exact ⟨by simp [hc], hd⟩), if_pos hlen]
  · rw [if_pos (Or.inl (by simp [Bool.not_eq_true] at hc ⊢; exact hc))]

/-- With a completed handshake and at least 96 buffered bytes, the
application secret is the HKDF chain over the **last** 32 buffer bytes. -/
theorem genAppSecrets_some (c : CryptoSetup) (hc : c.handshakeComplete = true)
    (hl : 96 ≤ (c.handshakeData.getD []).length) :
    c.generateApplicationSecrets =
      some (hkdfExtract
        (hkdfExtract ((c.handshakeData.getD []).drop ((c.handshakeData.getD []).length - 32))
          (strBytes "tls13 ap traffic"))
        (strBytes "quic key")) := by
  have hd : c.handshakeData ≠ none := by
    intro h
    rw [h] at hl
    simp at hl
  unfold CryptoSetup.generateApplicationSecrets
  rw [if_neg (by push_neg; exact ⟨by simp [hc], hd⟩), if_neg (by omega)]

set_option maxRecDepth 100000 in
/-- C6 counterexample: two crypto states that agree on completion, buffer
length and the **first** 32 buffer bytes but differ in the last 32 produce
different OneRTT secrets — so the secret is not derived from the first 32
bytes of the handshake buffer (the code uses the last 32). -/
theorem getCryptoData_oneRTT_depends_on_tail :
    (csBufZero.handshakeData.getD []).take 32 = (csBufTail1.handshakeData.getD []).take 32 ∧
    csBufZero.handshakeComplete = true ∧ csBufTail1.handshakeComplete = true ∧
    96 ≤ (csBufZero.handshakeData.getD []).length ∧
    96 ≤ (csBufTail1.handshakeData.getD []).length ∧
    csBufZero.GetCryptoData LevelOneRTT ≠ csBufTail1.GetCryptoData LevelOneRTT := by decide

/-- C6 (amended): `GetCryptoData` at level OneRTT returns a secret only
when `handshakeComplete` holds and the handshake buffer has at least 96
bytes, returns nil in every other case, and the secret is derived (via the
HKDF chain) from the **last** 32 bytes of the handshake buffer: two
qualifying states with equal last-32-byte suffixes give equal secrets. -/
theorem getCryptoData_oneRTT_spec :
    (∀ c : CryptoSetup,
      ¬(c.handshakeComplete = true ∧ 96 ≤ (c.handshakeData.getD []).length) →
      c.GetCryptoData LevelOneRTT = none) ∧
    (∀ c : CryptoSetup, c.GetCryptoData LevelOneRTT ≠ none →
      c.handshakeComplete = true ∧ 96 ≤ (c.handshakeData.getD []).length) ∧
    (∀ c₁ c₂ : CryptoSetup, c₁.tlsConfig ≠ none → c₂.tlsConfig ≠ none →
      c₁.handshakeComplete = true → c₂.handshakeComplete = true →
      96 ≤ (c₁.handshakeData.getD []).length → 96 ≤ (c₂.handshakeData.getD []).length →
      (c₁.handshakeData.getD []).drop ((c₁.handshakeData.getD []).length - 32) =
        (c₂.handshakeData.getD []).drop ((c₂.handshakeData.getD []).length - 32) →
      c₁.GetCryptoData LevelOneRTT = c₂.GetCryptoData LevelOneRTT) := by
  refine ⟨?_, ?_, ?_⟩
  · intro c h
    rw [getCryptoData_oneRTT]
    by_cases ht : c.tlsConfig = none
    · rw [if_pos ht]
    · rw [if_neg ht]
      exact genAppSecrets_none c h
  · intro c h
    by_contra hnot
    apply h
    rw [getCryptoData_oneRTT]
    by_cases ht : c.tlsConfig = none
    · rw [if_pos ht]
    · rw [if_neg ht]
      exact genAppSecrets_none c hnot
  · intro c₁ c₂ ht₁ ht₂ hc₁ hc₂ hl₁ hl₂ hsuf
    rw [getCryptoData_oneRTT, getCryptoData_oneRTT, if_neg ht₁, if_neg ht₂,
      genAppSecrets_some c₁ hc₁ hl₁, genAppSecrets_some c₂ hc₂ hl₂, hsuf]

/-- C6 witness: two states differing in the first 32 buffer bytes but
agreeing on the last 32 receive equal secrets. -/
theorem getCryptoData_oneRTT_spec_witness :
    csBufZero.GetCryptoData LevelOneRTT = csBufHead5.GetCryptoData LevelOneRTT :=
  getCryptoData_oneRTT_spec.2.2 csBufZero csBufHead5
    (by decide) (by decide) (by decide) (by decide) (by decide) (by decide) (by decide)

/-- C9 counterexample: the Go guard is `key == nil`, not an emptiness
check, so setting the empty **non-nil** key succeeds and overwrites the
stored key — the claim requires failure for every empty key. -/
theorem setZeroRTTKey_empty_nonnil_key_accepted :
    csWithKey.SetZeroRTTKey (some []) = .ok { csWithKey with zeroRTTKey := some [] } := rfl

/-- C9 (amended): `SetZeroRTTKey` fails (leaving the stored key unchanged)
exactly for the nil key; every non-nil key — including the empty non-nil
slice — succeeds and overwrites the stored key. -/
theorem setZeroRTTKey_spec (c : CryptoSetup) :
    c.SetZeroRTTKey none = .error .invalidZeroRTTKey ∧
    ∀ k : List Nat, c.SetZeroRTTKey (some k) = .ok { c with zeroRTTKey := some k } :=
  ⟨rfl, fun _ => rfl⟩

end LQUIC
